import Mathlib

/-!
Verification of the yuki medication-reminder core: a shallow embedding of
the schedule resolver, reminder generator, pending-store operations and
confirmation resolver, with theorems settling the frozen claims.

Dates are abstracted as calendar-day indexes (integers); instants as
minutes since an epoch.  Slots, frequencies and ids stay strings, as in
the source.
-/

namespace Yuki

/-- Slot trigger windows of `getCurrentTimeSlot` (scheduler), as
(name, start-minute-of-day) pairs; each window is 15 minutes wide.
The NIGHT entry starts at minute 1440 and is unreachable there; the
function handles midnight by a special case. -/
def slotWindows : List (String × Nat) :=
  [("MORNING", 510), ("LATE_MORNING", 660), ("MIDDAY", 840),
   ("EVENING", 1140), ("LATE_NIGHT", 1350), ("NIGHT", 1440)]

/-- First slot whose 15-minute window contains the given minute-of-day. -/
def findSlot : List (String × Nat) → Nat → Option String
  | [], _ => none
  | (n, t) :: rest, cur =>
      if t ≤ cur ∧ cur < t + 15 then some n else findSlot rest cur

/-- Scheduler `getCurrentTimeSlot`, over the local (Pacific) minute-of-day:
scans the slot windows, then special-cases minutes [0,15) to NIGHT. -/
def getCurrentTimeSlot (currentTime : Nat) : Option String :=
  match findSlot slotWindows currentTime with
  | some s => some s
  | none => if currentTime < 15 then some "NIGHT" else none

/-- Tapering table: slot sets for day 1, day 2 and day 3 onward. -/
structure Tapering where
  day1 : List String
  day2 : List String
  day3plus : List String
deriving DecidableEq

/-- Catalog medication.  `startDate`/`endDate` are date-only calendar-day
indexes as produced by `toDateOnly`. -/
structure Medication where
  id : String
  name : String
  dose : String
  location : String
  frequency : String
  startDate : Option Int
  endDate : Option Int
  active : Bool
  asNeeded : Bool
  notes : Option String
  tapering : Option Tapering
deriving DecidableEq

/-- Per-medication custom schedule stored under `yuki:schedule:<id>`
(`updateMedicationSchedule` writes frequency, timeSlots, active, notes;
absent fields fall through to the catalog value on merge). -/
structure ScheduleOverride where
  frequency : Option String
  timeSlots : Option (List String)
  active : Option Bool
  notes : Option (Option String)
deriving DecidableEq

/-- The JS spread `{...med, ...(customSchedule || {})}` restricted to the
fields `isMedicationDue` reads: present override fields shadow the
catalog medication. -/
def mergeSchedule (med : Medication) (ov : Option ScheduleOverride) : Medication :=
  match ov with
  | none => med
  | some o =>
      { med with
          frequency := o.frequency.getD med.frequency
          active := o.active.getD med.active
          notes := o.notes.getD med.notes }

/-- Static configuration: the medication lists by category, the
frequency-to-slot table and the surgery (anchor) calendar day. -/
structure Catalog where
  leftEye : List Medication
  rightEye : List Medication
  oral : List Medication
  frequencySlots : List (String × List String)
  surgeryDay : Int
deriving DecidableEq

/-- Flat medication list, left eye then right eye then oral. -/
def getAllMedications (cat : Catalog) : List Medication :=
  cat.leftEye ++ cat.rightEye ++ cat.oral

/-- Day number since surgery, 1-indexed (`getDayNumber`): both dates are
already calendar-day indexes, so the noon-normalized rounded difference
is exact subtraction. -/
def getDayNumber (cat : Catalog) (checkDay : Int) : Int :=
  checkDay - cat.surgeryDay + 1

/-- FREQUENCY_SLOTS association-list lookup. -/
def lookupFreq (fs : List (String × List String)) (f : String) : Option (List String) :=
  (fs.find? (fun p => p.1 == f)).map (·.2)

/-- Slot set of a tapering table for a given day number: day 1, day 2,
and day3plus for every other day number (including days before the
anchor). -/
def taperSlots (t : Tapering) (dayNum : Int) : List String :=
  if dayNum = 1 then t.day1 else if dayNum = 2 then t.day2 else t.day3plus

/-- `getAtropineSlots`: looks up the medication with id "atropine" in the
catalog's left-eye list and selects from its tapering table by the day
number; empty if it is absent or has no table. -/
def getAtropineSlots (cat : Catalog) (checkDay : Int) : List String :=
  match cat.leftEye.find? (fun m => m.id == "atropine") with
  | none => []
  | some a =>
      match a.tapering with
      | none => []
      | some t => taperSlots t (getDayNumber cat checkDay)

/-- `isMedicationDue` (scheduler with custom-schedule merge): merges the
override fetched for the medication's id, then checks active, start/end
date, as-needed, the atropine special case, and finally membership in
the effective frequency's slot set. -/
def isMedicationDue (cat : Catalog) (ovOf : String → Option ScheduleOverride)
    (med : Medication) (slot : String) (checkDay : Int) : Bool :=
  let eff := mergeSchedule med (ovOf med.id)
  if eff.active = false then false
  else if (match eff.startDate with
           | some s => decide (checkDay < s)
           | none => false) then false
  else if (match eff.endDate with
           | some e => decide (e < checkDay)
           | none => false) then false
  else if eff.asNeeded then false
  else if eff.id == "atropine" then (getAtropineSlots cat checkDay).contains slot
  else
    match lookupFreq cat.frequencySlots eff.frequency with
    | none => false
    | some slots => slots.contains slot

/-- Base minute-of-day of each slot (`getStaggeredTime`'s baseTimes). -/
def baseTimes : List (String × Nat) :=
  [("MORNING", 510), ("LATE_MORNING", 660), ("MIDDAY", 840),
   ("EVENING", 1140), ("LATE_NIGHT", 1350), ("NIGHT", 0)]

/-- Association lookup into `baseTimes`. -/
def lookupBase (slot : String) : Option Nat :=
  (baseTimes.find? (fun p => p.1 == slot)).map (·.2)

/-- EYE_DROP_STAGGER_MINUTES. -/
def staggerStep : Nat := 6

/-- Display minute-of-day after staggering: `getStaggeredTime` computes
hours = (total / 60) % 24 and minutes = total % 60 from
total = base + index * 6, which as a minute count is total % 1440. -/
def staggeredMinute (base idx : Nat) : Nat :=
  (base + idx * staggerStep) % 1440

/-- Character-list test: the first list is an initial segment of the
second. -/
def listIsPre : List Char → List Char → Bool
  | [], _ => true
  | _ :: _, [] => false
  | a :: as, b :: bs => a == b && listIsPre as bs

/-- Character-list substring test. -/
def listHasSub (sub : List Char) : List Char → Bool
  | [] => listIsPre sub []
  | c :: rest => listIsPre sub (c :: rest) || listHasSub sub rest

/-- JS `location.includes('eye')`: substring test. -/
def isEyeDropLoc (loc : String) : Bool :=
  listHasSub "eye".data loc.data

/-- Location priority order used by the generator. -/
def locationOrder : List String := ["LEFT eye", "RIGHT eye", "ORAL"]

/-- Generated reminder instance.  `displayTime` is the staggered
minute-of-day behind the formatted `scheduledTime` string. -/
structure GenReminder where
  id : String
  medicationId : String
  medication : Medication
  slot : String
  dayNumber : Int
  displayTime : Nat
  confirmed : Bool
  sentAt : Option Int
deriving DecidableEq

/-- Due medications regrouped in location-priority order (the JS builds
`byLocation` preserving insertion order and walks `locationOrder`; a
medication with a location outside the order is dropped). -/
def orderDueMeds (dueMeds : List Medication) : List Medication :=
  (locationOrder.map (fun loc => dueMeds.filter (fun m => m.location == loc))).flatten

/-- Body of the generation loop: walks the ordered due medications with
the shared eye-drop stagger counter `g`; eye drops take the counter value
and bump it, oral medications take index 0 and leave it. -/
def assignStagger (dateStr slot : String) (base : Nat) (dayNumber : Int) :
    List Medication → Nat → List GenReminder
  | [], _ => []
  | med :: rest, g =>
      let isEye := isEyeDropLoc med.location
      let idx := if isEye then g else 0
      { id := dateStr ++ "-" ++ slot ++ "-" ++ med.id
        medicationId := med.id
        medication := med
        slot := slot
        dayNumber := dayNumber
        displayTime := staggeredMinute base idx
        confirmed := false
        sentAt := none } ::
      assignStagger dateStr slot base dayNumber rest (if isEye then g + 1 else g)

/-- `getIndividualReminders`: resolves the slot from the local
minute-of-day, filters due medications, and staggers them in location
order.  `dateStr` is the UTC date string `date.toISOString().split('T')[0]`
used for the deterministic ids; `checkDay` the calendar-day index the due
checks see.  Returns none when no slot is active (the JS
`{slot: null, reminders: []}`). -/
def getIndividualReminders (cat : Catalog) (ovOf : String → Option ScheduleOverride)
    (localMinutes : Nat) (checkDay : Int) (dateStr : String) :
    Option (String × List GenReminder) :=
  match getCurrentTimeSlot localMinutes with
  | none => none
  | some slot =>
      let dueMeds := (getAllMedications cat).filter
        (fun med => med.active && isMedicationDue cat ovOf med slot checkDay)
      match lookupBase slot with
      | none => none
      | some base =>
          some (slot, assignStagger dateStr slot base (getDayNumber cat checkDay)
                        (orderDueMeds dueMeds) 0)

/-- `addPendingReminders`: appends the input reminders whose id is not
already present in the existing pending list (both the Redis and the
in-memory paths use exactly this filter). -/
def addPendingReminders (existing rs : List GenReminder) : List GenReminder :=
  let existingIds := existing.map (·.id)
  existing ++ rs.filter (fun r => !(existingIds.contains r.id))

/-- Per-recipient send outcome as returned by `sendWhatsApp` /
the notification sender (sid, to and error dropped). -/
structure RecipientResult where
  success : Bool
deriving DecidableEq

/-- Aggregate result object of `sendNotification` (the unified
notification module importing twilio.js and messenger.js): the
per-channel result lists plus the summary of success/failure counts. -/
structure NotificationResults where
  whatsapp : List RecipientResult
  messenger : List RecipientResult
  summarySent : Nat
  summaryFailed : Nat
deriving DecidableEq

/-- `sendNotification`: calls the WhatsApp channel inside a try — a
throw there (e.g. Twilio client construction) is caught and leaves the
whatsapp list empty — then, only when Messenger is configured, the
Messenger channel likewise; per-channel success/failure counts are
summed into the summary and the aggregate object is returned.  The
channels are oracles from the reminder (its rendered message) to a
returned per-recipient list or a thrown error; `sendNotification`
itself never throws. -/
def sendNotification (wa ms : GenReminder → Except Unit (List RecipientResult))
    (msConfigured : Bool) (r : GenReminder) : NotificationResults :=
  let waRes := match wa r with
    | .ok l => l
    | .error _ => []
  let msRes := if msConfigured then
      match ms r with
      | .ok l => l
      | .error _ => []
    else []
  { whatsapp := waRes
    messenger := msRes
    summarySent := (waRes.filter (·.success)).length + (msRes.filter (·.success)).length
    summaryFailed := (waRes.filter (fun x => !x.success)).length
      + (msRes.filter (fun x => !x.success)).length }

/-- A JS value the cron handler may loop over with `for...of`: an array
of per-recipient results (iterable), or a plain results object, which
is not iterable. -/
inductive SendResultsValue where
  | array (rs : List RecipientResult)
  | object (agg : NotificationResults)
deriving DecidableEq

/-- JS `for (const result of sendResults)`: iterating an array yields
its elements; iterating a plain object throws a TypeError. -/
def forOf : SendResultsValue → Except Unit (List RecipientResult)
  | .array rs => .ok rs
  | .object _ => .error ()

/-- One pass of the cron send loop (`api/cron.js`): per reminder, the
send call's result is logged with `for (const result of sendResults)`;
only when that loop runs (the value was iterable) does control reach
the `sentAt` assignment and the `sentIds.push` that follow it; a throw
anywhere in the try body — in particular the TypeError from iterating a
non-iterable result — is caught by the surrounding catch, leaving the
reminder untouched and its id uncollected. -/
def processSend (send : GenReminder → SendResultsValue) (now : Int) :
    List GenReminder → List GenReminder × List String
  | [] => ([], [])
  | r :: rest =>
      let tail := processSend send now rest
      match forOf (send r) with
      | .ok _ => ({ r with sentAt := some now } :: tail.1, r.id :: tail.2)
      | .error _ => (r :: tail.1, tail.2)

/-- Tail of the cron handler: filter the (mutated) reminders down to
those whose id was collected and add them to pending. -/
def cronSendPhase (send : GenReminder → SendResultsValue) (now : Int)
    (pending reminders : List GenReminder) : List GenReminder :=
  let sent := processSend send now reminders
  let sentReminders := sent.1.filter (fun r => sent.2.contains r.id)
  addPendingReminders pending sentReminders

/-- The send callable the cron handler actually uses: `sendNotification`,
whose return value is the plain aggregate object. -/
def cronSend (wa ms : GenReminder → Except Unit (List RecipientResult))
    (msConfigured : Bool) (r : GenReminder) : SendResultsValue :=
  .object (sendNotification wa ms msConfigured r)

/-- Confirmation record as stored under `yuki:confirmed:<date>:<slot>-<medId>`
(medication snapshot reduced to the display name). -/
structure ConfirmationData where
  confirmedAt : Int
  medicationId : String
  slot : String
  medName : String
deriving DecidableEq

/-- Store state touched by the confirmation resolver: the pending list
and the keyed confirmation records. -/
structure Store where
  pending : List GenReminder
  confirmedRecs : List (String × ConfirmationData)
deriving DecidableEq

/-- Result of `confirmById` / `confirmMedication` / `confirmLatestPending`:
either a structured non-fatal miss or a confirmation carrying the
medication name, the remaining pending count and confirmed-at. -/
inductive ConfirmResult where
  | missed (message : String)
  | confirmed (medName : String) (remaining : Nat) (confirmedAt : Int)
deriving DecidableEq

/-- `confirmById` (storage): finds the pending entry with the exact id;
absent ids give a structured not-found result and leave the store
unchanged; otherwise all entries with that id are filtered out, a
confirmation record is written, and name/remaining/confirmed-at are
returned. -/
def confirmById (st : Store) (now : Int) (todayStr reminderId : String) :
    ConfirmResult × Store :=
  match st.pending.find? (fun r => r.id == reminderId) with
  | none => (.missed ("Reminder " ++ reminderId ++ " not found"), st)
  | some reminder =>
      let updated := st.pending.filter (fun r => !(r.id == reminderId))
      let key := todayStr ++ ":" ++ reminder.slot ++ "-" ++ reminder.medicationId
      (.confirmed reminder.medication.name updated.length now,
       { pending := updated
         confirmedRecs := (key,
           { confirmedAt := now
             medicationId := reminder.medicationId
             slot := reminder.slot
             medName := reminder.medication.name }) :: st.confirmedRecs })

/-- `confirmMedication` (storage): removes every pending entry matching
the (medicationId, slot) pair, records a confirmation (snapshot from the
first matching entry when present, else just the medication id), and
reports the count of survivors. -/
def confirmMedication (st : Store) (now : Int)
    (todayStr medicationId slot : String) : ConfirmResult × Store :=
  let sameMedSlot := fun (r : GenReminder) => r.medicationId == medicationId && r.slot == slot
  let reminder? := st.pending.find? sameMedSlot
  let updated := st.pending.filter (fun r => !(sameMedSlot r))
  let key := todayStr ++ ":" ++ slot ++ "-" ++ medicationId
  (.confirmed ((reminder?.map (·.medication.name)).getD medicationId) updated.length now,
   { pending := updated
     confirmedRecs := (key,
       { confirmedAt := now
         medicationId := medicationId
         slot := slot
         medName := (reminder?.map (·.medication.name)).getD medicationId })
       :: st.confirmedRecs })

/-- `confirmLatestPending` (storage): on an empty pending list a
structured nothing-pending result; otherwise delegates to
`confirmMedication` for the first (oldest) entry's (medicationId, slot)
and reports that entry's medication name. -/
def confirmLatestPending (st : Store) (now : Int) (todayStr : String) :
    ConfirmResult × Store :=
  match st.pending with
  | [] => (.missed "No pending medications to confirm", st)
  | oldest :: _ =>
      let res := confirmMedication st now todayStr oldest.medicationId oldest.slot
      match res.1 with
      | .confirmed _ remaining at_ => (.confirmed oldest.medication.name remaining at_, res.2)
      | .missed m => (.missed m, res.2)

/-- Resend filter body of `getRemindersToResend`: `!r.sentAt` is the JS
falsy test (null or the zero timestamp), and the age test is
`now - sentAt >= threshold` in milliseconds. -/
def dueForResend (now thresholdMin : Int) (r : GenReminder) : Bool :=
  match r.sentAt with
  | none => false
  | some t => if t == 0 then false else decide (thresholdMin * 60 * 1000 ≤ now - t)

/-- `getRemindersToResend` with an explicit threshold argument. -/
def getRemindersToResend (pending : List GenReminder) (now thresholdMin : Int) :
    List GenReminder :=
  pending.filter (dueForResend now thresholdMin)

/-- `getRemindersToResend()` at its default threshold of 30 minutes. -/
def getRemindersToResendDefault (pending : List GenReminder) (now : Int) :
    List GenReminder :=
  getRemindersToResend pending now 30

/-- Slot-claim store: each claimed key (`yuki:sent:<date>:<slot>`)
carries the absolute second at which its Redis TTL elapses. -/
structure ClaimState where
  claims : List (String × Int)
deriving DecidableEq

/-- Expiry recorded for a key, if any. -/
def lookupClaim (st : ClaimState) (k : String) : Option Int :=
  (st.claims.find? (fun p => p.1 == k)).map (·.2)

/-- Key built by `claimSlot` from the date string and the slot name. -/
def claimKey (dateStr slot : String) : String :=
  "yuki:sent:" ++ dateStr ++ ":" ++ slot

/-- `claimSlot` against Redis at time `now` (seconds): SETNX fails while
the key is alive (now before its expiry); otherwise the key is (re)set
and EXPIRE gives it 7200 seconds to live. -/
def claimSlot (st : ClaimState) (k : String) (now : Int) : Bool × ClaimState :=
  match lookupClaim st k with
  | some exp =>
      if now < exp then (false, st)
      else (true, ⟨(k, now + 7200) :: st.claims.filter (fun p => !(p.1 == k))⟩)
  | none => (true, ⟨(k, now + 7200) :: st.claims⟩)

/-- Runs a sequence of (key, time) claim calls, collecting the returned
booleans. -/
def runClaims (st : ClaimState) : List (String × Int) → List Bool × ClaimState
  | [] => ([], st)
  | (k, t) :: rest =>
      let step := claimSlot st k t
      let tail := runClaims step.2 rest
      (step.1 :: tail.1, tail.2)

/-- UTC calendar-day index of an instant given in minutes since an
epoch (the date part of `toISOString`). -/
def utcDayIndex (utcMin : Nat) : Nat := utcMin / 1440

/-- Pacific calendar-day index of the same instant, `off` minutes behind
UTC (420 during daylight saving, 480 otherwise); this is the date part
`getTodayDateString` formats in America/Los_Angeles. -/
def pacificDayIndex (utcMin off : Nat) : Nat := (utcMin - off) / 1440

/-- Pacific minute-of-day of the instant, what `getCurrentTimeSlot`
computes from the zoned hours and minutes. -/
def pacificMinutesOfDay (utcMin off : Nat) : Nat := (utcMin - off) % 1440

/-- Modelled from the spec: due-check cascade with the spec's wording
"if the medication is the tapering kind" — the tapering branch selected
by the effective frequency being "tapering" and reading the medication's
own tapering table — in place of the source's `id === 'atropine'` test.
Used only to compare the claim's wording against `isMedicationDue`. -/
def isMedicationDueClaim (cat : Catalog) (ovOf : String → Option ScheduleOverride)
    (med : Medication) (slot : String) (checkDay : Int) : Bool :=
  let eff := mergeSchedule med (ovOf med.id)
  if eff.active = false then false
  else if (match eff.startDate with
           | some s => decide (checkDay < s)
           | none => false) then false
  else if (match eff.endDate with
           | some e => decide (e < checkDay)
           | none => false) then false
  else if eff.asNeeded then false
  else if eff.frequency == "tapering" then
    match eff.tapering with
    | none => false
    | some t => (taperSlots t (getDayNumber cat checkDay)).contains slot
  else
    match lookupFreq cat.frequencySlots eff.frequency with
    | none => false
    | some slots => slots.contains slot

/-- Modelled from the spec: the resend filter as the claim words it
("sent-at non-null, age exceeds the threshold", strict). -/
def dueForResendClaim (now thresholdMin : Int) (r : GenReminder) : Bool :=
  match r.sentAt with
  | none => false
  | some t => decide (thresholdMin * 60 * 1000 < now - t)

/-! Concrete sample data used by witnesses and counterexamples. -/

/-- Sample medication shaped like the catalog's entries. -/
def sampleMed (mid nm loc freq : String) : Medication :=
  { id := mid, name := nm, dose := "1 drop", location := loc,
    frequency := freq, startDate := none, endDate := none, active := true,
    asNeeded := false, notes := none, tapering := none }

/-- Left-eye sample. -/
def medA : Medication := sampleMed "amniotic" "Amniotic eye drops" "LEFT eye" "2x_daily"

/-- Right-eye sample. -/
def medB : Medication := sampleMed "predeye" "Prednisolone acetate 1%" "RIGHT eye" "2x_daily"

/-- Oral sample. -/
def medC : Medication := sampleMed "gaba" "Gabapentin 50mg" "ORAL" "2x_daily"

/-- Sample catalog with the repository's frequency table shape. -/
def cat0 : Catalog :=
  { leftEye := [medA], rightEye := [medB], oral := [medC],
    frequencySlots := [("4x_daily", ["MORNING", "MIDDAY", "EVENING", "NIGHT"]),
                       ("2x_daily", ["MORNING", "EVENING"]),
                       ("1x_daily", ["MORNING"]),
                       ("12h", ["MORNING", "EVENING"]),
                       ("12h_11", ["LATE_MORNING", "LATE_NIGHT"])],
    surgeryDay := 0 }

/-- No custom schedules stored. -/
def ov0 : String → Option ScheduleOverride := fun _ => none

/-- A non-atropine medication of the tapering frequency kind, with its
own tapering table. -/
def fooMed : Medication :=
  { sampleMed "foodrop" "Foo drops" "LEFT eye" "tapering" with
      tapering := some { day1 := ["MORNING"], day2 := ["MORNING"], day3plus := ["MORNING"] } }

/-- Catalog holding only `fooMed`. -/
def catFoo : Catalog := { cat0 with leftEye := [fooMed], rightEye := [], oral := [] }

/-- Sample pending reminder built from an id, medication id, slot and
sent-at. -/
def mkRem (i mid slot : String) (sentAt : Option Int) : GenReminder :=
  { id := i, medicationId := mid, medication := sampleMed mid mid "LEFT eye" "2x_daily",
    slot := slot, dayNumber := 1, displayTime := 510, confirmed := false, sentAt := sentAt }

/-- WhatsApp channel oracle on which every recipient fails (without the
channel call throwing). -/
def waAllFail : GenReminder → Except Unit (List RecipientResult) :=
  fun _ => .ok [{ success := false }]

/-- Messenger channel oracle returning no recipients. -/
def msEmpty : GenReminder → Except Unit (List RecipientResult) :=
  fun _ => .ok []

/-- The batch `getIndividualReminders cat0 ov0 510 0 "2026-01-12"`
produces: the two eye drops staggered 6 minutes apart, the oral
medication at the base time. -/
def rsW : List GenReminder :=
  [{ id := "2026-01-12-MORNING-amniotic", medicationId := "amniotic", medication := medA,
     slot := "MORNING", dayNumber := 1, displayTime := 510, confirmed := false, sentAt := none },
   { id := "2026-01-12-MORNING-predeye", medicationId := "predeye", medication := medB,
     slot := "MORNING", dayNumber := 1, displayTime := 516, confirmed := false, sentAt := none },
   { id := "2026-01-12-MORNING-gaba", medicationId := "gaba", medication := medC,
     slot := "MORNING", dayNumber := 1, displayTime := 510, confirmed := false, sentAt := none }]

/-- Eye-drop test on a medication's location. -/
def eyeMed (m : Medication) : Bool := isEyeDropLoc m.location

/-- Eye-drop test on a generated reminder. -/
def eyeReminder (r : GenReminder) : Bool := isEyeDropLoc r.medication.location

/-! Theorems. -/

/-- Unfolding equation of `addPendingReminders`. -/
theorem addPending_eq (existing rs : List GenReminder) :
    addPendingReminders existing rs
      = existing ++ rs.filter (fun r => !((existing.map (·.id)).contains r.id)) := rfl

/-- Adding a batch to an empty pending list keeps the whole batch. -/
theorem addPending_nil (rs : List GenReminder) : addPendingReminders [] rs = rs := by
  simp [addPendingReminders]

/-- After `addPendingReminders`, every id of the input batch is present. -/
theorem mem_ids_addPending (existing rs : List GenReminder) (r : GenReminder) (h : r ∈ rs) :
    r.id ∈ (addPendingReminders existing rs).map (·.id) := by
  rw [addPending_eq, List.map_append]
  by_cases hc : r.id ∈ existing.map (·.id)
  · exact List.mem_append.mpr (Or.inl hc)
  · refine List.mem_append.mpr (Or.inr ?_)
    refine List.mem_map.mpr ⟨r, ?_, rfl⟩
    refine List.mem_filter.mpr ⟨h, ?_⟩
    simpa using hc

/-- Re-adding the same batch leaves the pending list unchanged. -/
theorem addPending_absorb (p rs : List GenReminder) :
    addPendingReminders (addPendingReminders p rs) rs = addPendingReminders p rs := by
  have h : rs.filter
      (fun r => !(((addPendingReminders p rs).map (·.id)).contains r.id)) = [] := by
    refine List.filter_eq_nil_iff.mpr ?_
    intro r hr
    simpa using mem_ids_addPending p rs r hr
  rw [addPending_eq (addPendingReminders p rs) rs, h, List.append_nil]

/-- C2, corrected: `addPendingReminders` drops exactly the input
reminders whose id is already in the existing pending list; it performs
no dedupe within the input batch itself, so the no-duplicate-id
invariant after the call additionally needs the batch's own ids to be
distinct. -/
theorem c2_addPending_dedupe (existing rs : List GenReminder)
    (h1 : (existing.map (·.id)).Nodup) (h2 : (rs.map (·.id)).Nodup) :
    ((addPendingReminders existing rs).map (·.id)).Nodup ∧
    ∀ r, r ∈ addPendingReminders existing rs ↔
      r ∈ existing ∨ (r ∈ rs ∧ r.id ∉ existing.map (·.id)) := by
  constructor
  · rw [addPending_eq, List.map_append]
    refine List.nodup_append.mpr ⟨h1, ?_, ?_⟩
    · exact h2.sublist ((List.filter_sublist rs).map _)
    · intro a ha hb
      obtain ⟨r, hr, rfl⟩ := List.mem_map.mp hb
      have hpred := (List.mem_filter.mp hr).2
      simp at hpred
      obtain ⟨x, hx, hxa⟩ := List.mem_map.mp ha
      exact hpred x hx hxa
  · intro r
    rw [addPending_eq]
    simp [List.mem_append, List.mem_filter]

/-- C2 counterexample: an input batch holding the same id twice against
an empty pending list yields a pending list with a duplicated id — the
claimed in-batch dedupe does not happen. -/
theorem c2_counterexample :
    (addPendingReminders []
        [mkRem "a" "m" "MORNING" none, mkRem "a" "m" "MORNING" none]).map (·.id)
      = ["a", "a"] ∧
    ¬ ((addPendingReminders []
        [mkRem "a" "m" "MORNING" none, mkRem "a" "m" "MORNING" none]).map (·.id)).Nodup := by
  decide

/-- C2 witness: the corrected theorem applied to an empty pending list
and a two-reminder batch with distinct ids. -/
theorem c2_witness :
    (([] : List GenReminder).map (·.id)).Nodup ∧
    ([mkRem "a" "m" "MORNING" none, mkRem "b" "m" "MORNING" none].map (·.id)).Nodup ∧
    (((addPendingReminders []
        [mkRem "a" "m" "MORNING" none, mkRem "b" "m" "MORNING" none]).map (·.id)).Nodup ∧
     ∀ r, r ∈ addPendingReminders []
        [mkRem "a" "m" "MORNING" none, mkRem "b" "m" "MORNING" none] ↔
       r ∈ ([] : List GenReminder) ∨
         (r ∈ [mkRem "a" "m" "MORNING" none, mkRem "b" "m" "MORNING" none] ∧
          r.id ∉ ([] : List GenReminder).map (·.id))) :=
  ⟨by decide, by decide, c2_addPending_dedupe [] _ (by decide) (by decide)⟩

/-- Ids produced by the generation loop always have the deterministic
date-slot-medication shape. -/
theorem assignStagger_id (dateStr slot : String) (base : Nat) (day : Int) :
    ∀ meds g r, r ∈ assignStagger dateStr slot base day meds g →
      r.id = dateStr ++ "-" ++ slot ++ "-" ++ r.medicationId
  | [], _, r, h => by simp [assignStagger] at h
  | med :: rest, g, r, h => by
      simp only [assignStagger, List.mem_cons] at h
      rcases h with h | h
      · subst h; rfl
      · exact assignStagger_id dateStr slot base day rest _ r h

/-- C4, confirmed: the generator is deterministic for a fixed (date,
slot) — two runs agree id-for-id — every id is built as
date-string + "-" + slot + "-" + medication id, and pushing the same
batch through `addPendingReminders` twice leaves the pending list at
exactly one generation's worth. -/
theorem c4_generator_idempotent (cat : Catalog) (ovOf : String → Option ScheduleOverride)
    (localMinutes : Nat) (checkDay : Int) (dateStr slot : String) (rs : List GenReminder)
    (h : getIndividualReminders cat ovOf localMinutes checkDay dateStr = some (slot, rs)) :
    (∀ slot2 rs2,
        getIndividualReminders cat ovOf localMinutes checkDay dateStr = some (slot2, rs2) →
        rs2.map (·.id) = rs.map (·.id)) ∧
    (∀ r ∈ rs, r.id = dateStr ++ "-" ++ slot ++ "-" ++ r.medicationId) ∧
    (∀ p, addPendingReminders (addPendingReminders p rs) rs = addPendingReminders p rs) ∧
    (addPendingReminders (addPendingReminders [] rs) rs).length = rs.length := by
  refine ⟨?_, ?_, fun p => addPending_absorb p rs, ?_⟩
  · intro slot2 rs2 h2
    rw [h] at h2
    cases h2
    rfl
  · intro r hr
    unfold getIndividualReminders at h
    split at h
    · simp at h
    · dsimp only at h
      split at h
      · simp at h
      · simp only [Option.some.injEq, Prod.mk.injEq] at h
        obtain ⟨hs, hrs⟩ := h
        subst hs
        rw [← hrs] at hr
        exact assignStagger_id _ _ _ _ _ _ r hr
  · rw [addPending_absorb, addPending_nil]

/-- C4 witness: the theorem applied at catalog `cat0`, the MORNING
window minute 510 and date 2026-01-12, whose generated batch is `rsW`. -/
theorem c4_witness :
    getIndividualReminders cat0 ov0 510 0 "2026-01-12" = some ("MORNING", rsW) ∧
    ((∀ slot2 rs2,
        getIndividualReminders cat0 ov0 510 0 "2026-01-12" = some (slot2, rs2) →
        rs2.map (·.id) = rsW.map (·.id)) ∧
     (∀ r ∈ rsW, r.id = "2026-01-12" ++ "-" ++ "MORNING" ++ "-" ++ r.medicationId) ∧
     (∀ p, addPendingReminders (addPendingReminders p rsW) rsW = addPendingReminders p rsW) ∧
     (addPendingReminders (addPendingReminders [] rsW) rsW).length = rsW.length) :=
  ⟨by decide, c4_generator_idempotent cat0 ov0 510 0 "2026-01-12" "MORNING" rsW (by decide)⟩

/-- Shape of a successful generator run: the slot came from
`getCurrentTimeSlot`, it has a base time, and the batch is the stagger
loop over the due medications in location order. -/
theorem generator_shape (cat : Catalog) (ovOf : String → Option ScheduleOverride)
    (localMinutes : Nat) (checkDay : Int) (dateStr slot : String) (rs : List GenReminder)
    (h : getIndividualReminders cat ovOf localMinutes checkDay dateStr = some (slot, rs)) :
    getCurrentTimeSlot localMinutes = some slot ∧
    ∃ b, lookupBase slot = some b ∧
      rs = assignStagger dateStr slot b (getDayNumber cat checkDay)
             (orderDueMeds ((getAllMedications cat).filter
               (fun med => med.active && isMedicationDue cat ovOf med slot checkDay))) 0 := by
  unfold getIndividualReminders at h
  split at h
  · simp at h
  · dsimp only at h
    split at h
    · simp at h
    · simp only [Option.some.injEq, Prod.mk.injEq] at h
      obtain ⟨hs, hrs⟩ := h
      subst hs
      exact ⟨by assumption, _, by assumption, hrs.symm⟩

/-- Display times of the eye-drop reminders in a stagger run: the
shared counter hands out consecutive indices starting at its initial
value, six minutes apart from the base time. -/
theorem assignStagger_eye_times (dateStr slot : String) (base : Nat) (day : Int) :
    ∀ meds g,
      ((assignStagger dateStr slot base day meds g).filter eyeReminder).map (·.displayTime)
        = (List.range (meds.countP eyeMed)).map (fun k => staggeredMinute base (g + k))
  | [], g => by simp [assignStagger]
  | med :: rest, g => by
      cases he : isEyeDropLoc med.location with
      | true =>
          have ih := assignStagger_eye_times dateStr slot base day rest (g + 1)
          have hc : (med :: rest).countP eyeMed = rest.countP eyeMed + 1 := by
            simp [List.countP_cons, eyeMed, he]
          rw [hc, List.range_succ_eq_map]
          simp only [assignStagger, he, if_true, List.filter_cons, eyeReminder,
            List.map_cons, List.map_map, ih]
          rw [Nat.add_zero]
          refine congrArg (List.cons (staggeredMinute base g)) ?_
          refine List.map_congr_left ?_
          intro k _
          simp only [Function.comp_apply]
          exact congrArg (staggeredMinute base) (by omega)
      | false =>
          have ih := assignStagger_eye_times dateStr slot base day rest g
          have hc : (med :: rest).countP eyeMed = rest.countP eyeMed := by
            simp [List.countP_cons, eyeMed, he]
          rw [hc]
          simp [assignStagger, he, eyeReminder, ih]

/-- Consecutive staggered display times step by six minutes modulo a
day. -/
theorem stagger_chain (base : Nat) :
    ∀ n g, List.Chain'
      (fun a c => c = (a + 6) % 1440)
      ((List.range n).map (fun k => staggeredMinute base (g + k)))
  | 0, _ => by simp
  | n + 1, g => by
      rw [List.chain'_map]
      refine (List.chain'_range_succ _ n).mpr ?_
      intro m _
      simp only [staggeredMinute, staggerStep]
      omega

/-- Non-eye-drop reminders in a stagger run always take index 0. -/
theorem assignStagger_oral (dateStr slot : String) (base : Nat) (day : Int) :
    ∀ meds g r, r ∈ assignStagger dateStr slot base day meds g →
      eyeReminder r = false → r.displayTime = staggeredMinute base 0
  | [], _, r, h, _ => by simp [assignStagger] at h
  | med :: rest, g, r, h, hr => by
      simp only [assignStagger, List.mem_cons] at h
      rcases h with h | h
      · subst h
        simp only [eyeReminder] at hr
        simp only at hr ⊢
        rw [if_neg (by simp [hr])]
      · exact assignStagger_oral dateStr slot base day rest _ r h hr

/-- C8, confirmed: in one generated batch the eye-drop reminders'
display times are the base time plus 6 minutes per stagger index, the
indices running 0, 1, 2, … across all eye locations in order (one
shared counter); consecutive eye-drop display times differ by exactly 6
minutes (modulo 24h), and non-eye-drop (oral) reminders display at the
slot's base time. -/
theorem c8_stagger (cat : Catalog) (ovOf : String → Option ScheduleOverride)
    (localMinutes : Nat) (checkDay : Int) (dateStr slot : String) (rs : List GenReminder)
    (b : Nat) (h : getIndividualReminders cat ovOf localMinutes checkDay dateStr = some (slot, rs))
    (hb : lookupBase slot = some b) (hlt : b < 1440) :
    ((rs.filter eyeReminder).map (·.displayTime)
       = (List.range ((rs.filter eyeReminder).length)).map (fun k => (b + k * 6) % 1440)) ∧
    List.Chain' (fun a c => c = (a + 6) % 1440) ((rs.filter eyeReminder).map (·.displayTime)) ∧
    (∀ r ∈ rs, eyeReminder r = false → r.displayTime = b) := by
  obtain ⟨-, b', hb', hrs⟩ := generator_shape cat ovOf localMinutes checkDay dateStr slot rs h
  rw [hb] at hb'
  cases hb'
  subst hrs
  have hts := assignStagger_eye_times dateStr slot b (getDayNumber cat checkDay)
    (orderDueMeds ((getAllMedications cat).filter
      (fun med => med.active && isMedicationDue cat ovOf med slot checkDay))) 0
  refine ⟨?_, ?_, ?_⟩
  · have hlen := congrArg List.length hts
    simp only [List.length_map, List.length_range] at hlen
    rw [hts, hlen]
    refine List.map_congr_left ?_
    intro k _
    simp [staggeredMinute, staggerStep]
  · rw [hts]
    exact stagger_chain b _ 0
  · intro r hr hre
    have := assignStagger_oral dateStr slot b (getDayNumber cat checkDay) _ 0 r hr hre
    rw [this]
    simp [staggeredMinute, Nat.mod_eq_of_lt hlt]

/-- C8 witness: the theorem at the `cat0` MORNING run — eye-drop times
510 and 516, oral at the base time 510. -/
theorem c8_witness :
    getIndividualReminders cat0 ov0 510 0 "2026-01-12" = some ("MORNING", rsW) ∧
    lookupBase "MORNING" = some 510 ∧ 510 < 1440 ∧
    (((rsW.filter eyeReminder).map (·.displayTime)
        = (List.range ((rsW.filter eyeReminder).length)).map (fun k => (510 + k * 6) % 1440)) ∧
     List.Chain' (fun a c => c = (a + 6) % 1440) ((rsW.filter eyeReminder).map (·.displayTime)) ∧
     (∀ r ∈ rsW, eyeReminder r = false → r.displayTime = 510)) :=
  ⟨by decide, by decide, by decide,
   c8_stagger cat0 ov0 510 0 "2026-01-12" "MORNING" rsW 510 (by decide) (by decide) (by decide)⟩

/-- Elements failing the predicate ahead of an append do not affect
`find?`. -/
theorem find?_skip {α : Type} {p : α → Bool} (l1 l2 : List α)
    (h : ∀ x ∈ l1, p x = false) : (l1 ++ l2).find? p = l2.find? p := by
  induction l1 with
  | nil => rfl
  | cons a l ih =>
      have ha := h a (List.mem_cons_self a l)
      simp only [List.cons_append, List.find?_cons, ha]
      exact ih (fun x hx => h x (List.mem_cons_of_mem a hx))

/-- C6, confirmed: for a pending list with distinct ids, `confirmById`
of a present id removes exactly that entry (the others survive in their
original order), records the confirmation and returns the medication
name, the remaining count and confirmed-at; an absent id yields the
structured not-found result and leaves the store untouched (the
embedding is a total function — nothing is thrown). -/
theorem c6_confirmById (now : Int) (todayStr rid : String) :
    (∀ pend recs (l1 : List GenReminder) r l2,
        (pend.map (·.id)).Nodup → pend = l1 ++ r :: l2 → r.id = rid →
        confirmById ⟨pend, recs⟩ now todayStr rid
          = (.confirmed r.medication.name (l1 ++ l2).length now,
             { pending := l1 ++ l2,
               confirmedRecs :=
                 (todayStr ++ ":" ++ r.slot ++ "-" ++ r.medicationId,
                  { confirmedAt := now, medicationId := r.medicationId,
                    slot := r.slot, medName := r.medication.name }) :: recs })) ∧
    (∀ pend recs, rid ∉ pend.map (·.id) →
        confirmById ⟨pend, recs⟩ now todayStr rid
          = (.missed ("Reminder " ++ rid ++ " not found"), ⟨pend, recs⟩)) := by
  constructor
  · intro pend recs l1 r l2 hnd hsplit hid
    subst hsplit
    have hids : (l1.map (·.id) ++ r.id :: l2.map (·.id)).Nodup := by
      simpa using hnd
    obtain ⟨-, h2, hdisj⟩ := List.nodup_append.mp hids
    have hr2 : r.id ∉ l2.map (·.id) := (List.nodup_cons.mp h2).1
    have hl1 : ∀ x ∈ l1, (x.id == rid) = false := by
      intro x hx
      refine beq_eq_false_iff_ne.mpr ?_
      intro hcon
      exact (hdisj (List.mem_map_of_mem (·.id) hx)) (by rw [hcon, ← hid]; exact List.mem_cons_self _ _)
    have hfind : (l1 ++ r :: l2).find? (fun x => x.id == rid) = some r := by
      rw [find?_skip l1 (r :: l2) hl1]
      simp [List.find?_cons, hid]
    have hfilter : (l1 ++ r :: l2).filter (fun x => !(x.id == rid)) = l1 ++ l2 := by
      rw [List.filter_append, List.filter_cons]
      have hrdrop : (!(r.id == rid)) = false := by simp [hid]
      rw [hrdrop]
      have hkeep1 : l1.filter (fun x => !(x.id == rid)) = l1 :=
        List.filter_eq_self.mpr (fun x hx => by simp [hl1 x hx])
      have hkeep2 : l2.filter (fun x => !(x.id == rid)) = l2 := by
        refine List.filter_eq_self.mpr (fun x hx => ?_)
        have : x.id ≠ rid := by
          intro hcon
          exact hr2 (by rw [hid, ← hcon]; exact List.mem_map_of_mem (·.id) hx)
        simp [this]
      rw [hkeep1, hkeep2]
      simp
    unfold confirmById
    rw [hfind]
    dsimp only
    rw [hfilter]
  · intro pend recs habs
    have hfind : pend.find? (fun x => x.id == rid) = none := by
      refine List.find?_eq_none.mpr ?_
      intro x hx hcon
      exact habs (by rw [← beq_iff_eq.mp hcon]; exact List.mem_map_of_mem (·.id) hx)
    unfold confirmById
    rw [hfind]

/-- C6 witness: the theorem applied to four pending entries
[A, B, C, D], confirming D by id: exactly D goes, A, B, C survive in
order, and the not-found branch at a stale id. -/
theorem c6_witness :
    (([mkRem "a" "m1" "S" none, mkRem "b" "m2" "S" none, mkRem "c" "m3" "S" none,
       mkRem "d" "m4" "S" none].map (·.id)).Nodup ∧
     confirmById ⟨[mkRem "a" "m1" "S" none, mkRem "b" "m2" "S" none, mkRem "c" "m3" "S" none,
       mkRem "d" "m4" "S" none], []⟩ 7 "2026-01-12" "d"
       = (.confirmed "m4" 3 7,
          { pending := [mkRem "a" "m1" "S" none, mkRem "b" "m2" "S" none, mkRem "c" "m3" "S" none],
            confirmedRecs := [("2026-01-12" ++ ":" ++ "S" ++ "-" ++ "m4",
              { confirmedAt := 7, medicationId := "m4", slot := "S", medName := "m4" })] })) ∧
    confirmById ⟨[mkRem "a" "m1" "S" none], []⟩ 7 "2026-01-12" "zz"
      = (.missed ("Reminder " ++ "zz" ++ " not found"), ⟨[mkRem "a" "m1" "S" none], []⟩) :=
  ⟨⟨by decide,
    (c6_confirmById 7 "2026-01-12" "d").1
      [mkRem "a" "m1" "S" none, mkRem "b" "m2" "S" none, mkRem "c" "m3" "S" none,
       mkRem "d" "m4" "S" none] []
      [mkRem "a" "m1" "S" none, mkRem "b" "m2" "S" none, mkRem "c" "m3" "S" none]
      (mkRem "d" "m4" "S" none) [] (by decide) (by decide) (by decide)⟩,
   (c6_confirmById 7 "2026-01-12" "zz").2 [mkRem "a" "m1" "S" none] [] (by decide)⟩

/-- C7 counterexample: with two pending entries sharing the oldest
entry's (medication id, slot) pair, confirm-oldest removes both, while
`confirmById` at the oldest entry's id removes only that entry — the
two removals are not the same. -/
theorem c7_counterexample :
    (confirmLatestPending ⟨[mkRem "a" "m" "S" none, mkRem "b" "m" "S" none], []⟩ 5 "d").2.pending
      = [] ∧
    (confirmById ⟨[mkRem "a" "m" "S" none, mkRem "b" "m" "S" none], []⟩ 5 "d" "a").2.pending
      = [mkRem "b" "m" "S" none] := by
  decide

/-- C7, corrected: `confirmLatestPending` on an empty pending list
returns the structured nothing-pending result; on a non-empty list it
delegates to `confirmMedication`, which removes every entry matching
the oldest entry's (medication id, slot) pair — this coincides with
`confirmById` at the oldest entry's id (removing exactly the oldest
entry and keeping the rest in order) exactly when no later entry shares
that pair. -/
theorem c7_confirmOldest (now : Int) (todayStr : String) :
    (∀ recs, confirmLatestPending ⟨[], recs⟩ now todayStr
        = (.missed "No pending medications to confirm", ⟨[], recs⟩)) ∧
    (∀ pend recs oldest rest, pend = oldest :: rest →
        (∀ x ∈ rest, (x.medicationId == oldest.medicationId && x.slot == oldest.slot) = false) →
        (∀ x ∈ rest, (x.id == oldest.id) = false) →
        confirmLatestPending ⟨pend, recs⟩ now todayStr
          = confirmById ⟨pend, recs⟩ now todayStr oldest.id ∧
        (confirmLatestPending ⟨pend, recs⟩ now todayStr).2.pending = rest ∧
        (confirmLatestPending ⟨pend, recs⟩ now todayStr).1
          = .confirmed oldest.medication.name rest.length now) := by
  constructor
  · intro recs
    rfl
  · intro pend recs oldest rest hsplit hpair hid
    subst hsplit
    have hfindMS : ((oldest :: rest).find?
        (fun r => r.medicationId == oldest.medicationId && r.slot == oldest.slot)) = some oldest := by
      simp [List.find?_cons]
    have hfilterMS : ((oldest :: rest).filter
        (fun r => !(r.medicationId == oldest.medicationId && r.slot == oldest.slot))) = rest := by
      rw [List.filter_cons]
      have hdrop : (!(oldest.medicationId == oldest.medicationId && oldest.slot == oldest.slot))
          = false := by simp
      rw [hdrop, if_neg Bool.false_ne_true]
      exact List.filter_eq_self.mpr (fun x hx => by simp [hpair x hx])
    have hfindId : ((oldest :: rest).find? (fun r => r.id == oldest.id)) = some oldest := by
      simp [List.find?_cons]
    have hfilterId : ((oldest :: rest).filter (fun r => !(r.id == oldest.id))) = rest := by
      rw [List.filter_cons]
      have hdrop : (!(oldest.id == oldest.id)) = false := by simp
      rw [hdrop, if_neg Bool.false_ne_true]
      exact List.filter_eq_self.mpr (fun x hx => by simp [hid x hx])
    have hmed : confirmMedication ⟨oldest :: rest, recs⟩ now todayStr
        oldest.medicationId oldest.slot
        = (.confirmed oldest.medication.name rest.length now,
           { pending := rest,
             confirmedRecs := (todayStr ++ ":" ++ oldest.slot ++ "-" ++ oldest.medicationId,
               { confirmedAt := now, medicationId := oldest.medicationId,
                 slot := oldest.slot, medName := oldest.medication.name }) :: recs }) := by
      unfold confirmMedication
      dsimp only
      rw [hfindMS, hfilterMS]
      rfl
    have hbyid : confirmById ⟨oldest :: rest, recs⟩ now todayStr oldest.id
        = (.confirmed oldest.medication.name rest.length now,
           { pending := rest,
             confirmedRecs := (todayStr ++ ":" ++ oldest.slot ++ "-" ++ oldest.medicationId,
               { confirmedAt := now, medicationId := oldest.medicationId,
                 slot := oldest.slot, medName := oldest.medication.name }) :: recs }) := by
      unfold confirmById
      rw [hfindId]
      dsimp only
      rw [hfilterId]
    have hlatest : confirmLatestPending ⟨oldest :: rest, recs⟩ now todayStr
        = (.confirmed oldest.medication.name rest.length now,
           { pending := rest,
             confirmedRecs := (todayStr ++ ":" ++ oldest.slot ++ "-" ++ oldest.medicationId,
               { confirmedAt := now, medicationId := oldest.medicationId,
                 slot := oldest.slot, medName := oldest.medication.name }) :: recs }) := by
      unfold confirmLatestPending
      dsimp only
      rw [hmed]
    refine ⟨?_, ?_, ?_⟩
    · rw [hlatest, hbyid]
    · rw [hlatest]
    · rw [hlatest]

/-- C7 witness: the corrected theorem at four pending entries with
pairwise distinct medications and ids — confirm-oldest removes exactly
A and leaves B, C, D — and at the empty pending list. -/
theorem c7_witness :
    confirmLatestPending ⟨[], []⟩ 7 "2026-01-12"
      = (.missed "No pending medications to confirm", ⟨[], []⟩) ∧
    (confirmLatestPending ⟨[mkRem "a" "m1" "S" none, mkRem "b" "m2" "S" none,
        mkRem "c" "m3" "S" none, mkRem "d" "m4" "S" none], []⟩ 7 "2026-01-12"
        = confirmById ⟨[mkRem "a" "m1" "S" none, mkRem "b" "m2" "S" none,
            mkRem "c" "m3" "S" none, mkRem "d" "m4" "S" none], []⟩ 7 "2026-01-12"
            (mkRem "a" "m1" "S" none).id ∧
     (confirmLatestPending ⟨[mkRem "a" "m1" "S" none, mkRem "b" "m2" "S" none,
        mkRem "c" "m3" "S" none, mkRem "d" "m4" "S" none], []⟩ 7 "2026-01-12").2.pending
        = [mkRem "b" "m2" "S" none, mkRem "c" "m3" "S" none, mkRem "d" "m4" "S" none] ∧
     (confirmLatestPending ⟨[mkRem "a" "m1" "S" none, mkRem "b" "m2" "S" none,
        mkRem "c" "m3" "S" none, mkRem "d" "m4" "S" none], []⟩ 7 "2026-01-12").1
        = .confirmed (mkRem "a" "m1" "S" none).medication.name
            [mkRem "b" "m2" "S" none, mkRem "c" "m3" "S" none, mkRem "d" "m4" "S" none].length 7) :=
  ⟨(c7_confirmOldest 7 "2026-01-12").1 [],
   (c7_confirmOldest 7 "2026-01-12").2
     [mkRem "a" "m1" "S" none, mkRem "b" "m2" "S" none,
      mkRem "c" "m3" "S" none, mkRem "d" "m4" "S" none] []
     (mkRem "a" "m1" "S" none)
     [mkRem "b" "m2" "S" none, mkRem "c" "m3" "S" none, mkRem "d" "m4" "S" none]
     (by decide) (by decide) (by decide)⟩

/-- C9 counterexample: a pending entry whose sent-at lies exactly the
threshold (30 minutes) in the past does not have an age exceeding the
threshold, yet `getRemindersToResend` returns it — the code compares
with greater-or-equal, not strictly. -/
theorem c9_counterexample :
    getRemindersToResend [mkRem "r" "m" "S" (some 1800000)] 3600000 30
      = [mkRem "r" "m" "S" (some 1800000)] ∧
    (3600000 : Int) - 1800000 = 30 * 60 * 1000 ∧
    dueForResendClaim 3600000 30 (mkRem "r" "m" "S" (some 1800000)) = false := by
  decide

/-- C9, corrected: `getRemindersToResend` returns exactly the pending
entries whose sent-at is a non-null (and non-zero — the JS falsy test)
timestamp at least the threshold (in minutes, default 30) in the past;
the 31-minute entry is included, the 29-minute one and the null one are
excluded, and the boundary at exactly the threshold is included. -/
theorem c9_resend (pending : List GenReminder) (now thr : Int) :
    (∀ r, r ∈ getRemindersToResend pending now thr ↔
        r ∈ pending ∧ ∃ t, r.sentAt = some t ∧ t ≠ 0 ∧ thr * 60 * 1000 ≤ now - t) ∧
    getRemindersToResendDefault pending now = getRemindersToResend pending now 30 := by
  refine ⟨?_, rfl⟩
  intro r
  rw [getRemindersToResend, List.mem_filter]
  refine and_congr_right (fun _ => ?_)
  unfold dueForResend
  cases hs : r.sentAt with
  | none => simp
  | some t =>
      by_cases ht : t = 0
      · simp [ht]
      · simp [ht]

/-- C3 counterexample: the same (date, slot) key claimed at time 0 and
again once the 2-hour expiry has elapsed yields two `true` returns —
"at most one true ever per (date, slot)" does not hold across the
expiry. -/
theorem c3_counterexample :
    (runClaims ⟨[]⟩ [(claimKey "2026-01-12" "MORNING", 0),
                     (claimKey "2026-01-12" "MORNING", 7200)]).1 = [true, true] := by
  decide

/-- A winning claim leaves the key recorded with a 7200-second expiry. -/
theorem claimSlot_true_lookup (st : ClaimState) (k : String) (t : Int) (st' : ClaimState)
    (h : claimSlot st k t = (true, st')) : lookupClaim st' k = some (t + 7200) := by
  unfold claimSlot at h
  cases hl : lookupClaim st k with
  | none =>
      rw [hl] at h
      cases h
      simp [lookupClaim, List.find?_cons]
  | some exp =>
      rw [hl] at h
      dsimp only at h
      by_cases ht : t < exp
      · rw [if_pos ht] at h
        cases h
      · rw [if_neg ht] at h
        cases h
        simp [lookupClaim, List.find?_cons]

/-- `find?` ignores a filter that keeps every hit of the searched-for
predicate. -/
theorem find?_filter_keep {α : Type} (p q : α → Bool) (l : List α)
    (h : ∀ x, p x = true → q x = true) : (l.filter q).find? p = l.find? p := by
  induction l with
  | nil => rfl
  | cons a l ih =>
      cases hq : q a with
      | false =>
          have hp : p a = false := by
            cases hpa : p a
            · rfl
            · rw [h a hpa] at hq; cases hq
          simp [List.filter_cons, hq, List.find?_cons, hp, ih]
      | true =>
          cases hpa : p a with
          | false => simp [List.filter_cons, hq, List.find?_cons, hpa, ih]
          | true => simp [List.filter_cons, hq, List.find?_cons, hpa]

/-- A recorded claim survives any other claim call, and a call on its
own key made before its expiry. -/
theorem claimSlot_preserves (st : ClaimState) (k k' : String) (t' e : Int) (b : Bool)
    (st' : ClaimState) (hl : lookupClaim st k = some e)
    (h : claimSlot st k' t' = (b, st')) (hcase : k' ≠ k ∨ t' < e) :
    lookupClaim st' k = some e := by
  unfold claimSlot at h
  cases hlk : lookupClaim st k' with
  | none =>
      rw [hlk] at h
      cases h
      have hkk : (k' == k) = false := by
        refine beq_eq_false_iff_ne.mpr ?_
        intro hkeq
        rw [hkeq, hl] at hlk
        cases hlk
      simpa [lookupClaim, List.find?_cons, hkk] using hl
  | some exp =>
      rw [hlk] at h
      dsimp only at h
      by_cases ht : t' < exp
      · rw [if_pos ht] at h
        cases h
        exact hl
      · rw [if_neg ht] at h
        cases h
        have hkk : k' ≠ k := by
          rcases hcase with hck | hct
          · exact hck
          · intro hkeq
            rw [hkeq, hl] at hlk
            cases hlk
            exact ht hct
        have hkkb : (k' == k) = false := beq_eq_false_iff_ne.mpr hkk
        have hfind := find?_filter_keep (fun p => p.1 == k) (fun p => !(p.1 == k')) st.claims
          (fun x hx => by
            have : x.1 = k := beq_iff_eq.mp hx
            simp [this, beq_eq_false_iff_ne.mpr (Ne.symm hkk)])
        simpa [lookupClaim, List.find?_cons, hkkb, hfind] using hl

/-- While a key's recorded claim is unexpired, every call on that key in
a run returns false. -/
theorem runClaims_all_false (k : String) (e : Int) :
    ∀ (calls : List (String × Int)) (st : ClaimState),
      lookupClaim st k = some e → (∀ c ∈ calls, c.2 < e) →
      ∀ p ∈ calls.zip (runClaims st calls).1, p.1.1 = k → p.2 = false
  | [], _, _, _, p, hp, _ => by simp [runClaims] at hp
  | (k', t') :: rest, st, hl, hts, p, hp, hpk => by
      simp only [runClaims, List.zip_cons_cons, List.mem_cons] at hp
      have htlt : t' < e := hts (k', t') (List.mem_cons_self _ _)
      rcases hp with hp | hp
      · subst hp
        have hkeq : k' = k := hpk
        subst hkeq
        show (claimSlot st k' t').1 = false
        unfold claimSlot
        rw [hl]
        dsimp only
        rw [if_pos htlt]
      · have hl' : lookupClaim (claimSlot st k' t').2 k = some e := by
          refine claimSlot_preserves st k k' t' e (claimSlot st k' t').1 (claimSlot st k' t').2
            hl rfl ?_
          by_cases hkeq : k' = k
          · exact Or.inr htlt
          · exact Or.inl hkeq
        exact runClaims_all_false k e rest (claimSlot st k' t').2 hl'
          (fun c hc => hts c (List.mem_cons_of_mem _ hc)) p hp hpk

/-- C3, corrected: a winning `claimSlot` records the key with a 2-hour
(7200-second) expiry, and every further call on the same (date, slot)
key made before that expiry elapses returns false; after the expiry the
key can be claimed again (see the counterexample), so exclusivity is
per 2-hour window, not per (date, slot) forever. -/
theorem c3_claimSlot (st : ClaimState) (k : String) (t : Int) (st' : ClaimState)
    (h : claimSlot st k t = (true, st')) :
    lookupClaim st' k = some (t + 7200) ∧
    ∀ (calls : List (String × Int)), (∀ c ∈ calls, c.2 < t + 7200) →
      ∀ p ∈ calls.zip (runClaims st' calls).1, p.1.1 = k → p.2 = false := by
  have hl := claimSlot_true_lookup st k t st' h
  exact ⟨hl, fun calls hts => runClaims_all_false k (t + 7200) calls st' hl hts⟩

/-- C3 witness: the corrected theorem at the empty store — the first
claim wins, a repeat call 100 seconds later (inside the 2-hour window)
returns false. -/
theorem c3_witness :
    claimSlot ⟨[]⟩ (claimKey "2026-01-12" "MORNING") 0
      = (true, ⟨[(claimKey "2026-01-12" "MORNING", 0 + 7200)]⟩) ∧
    ((100 : Int) < 0 + 7200) ∧
    (lookupClaim ⟨[(claimKey "2026-01-12" "MORNING", 0 + 7200)]⟩ (claimKey "2026-01-12" "MORNING")
        = some (0 + 7200) ∧
     ∀ (calls : List (String × Int)), (∀ c ∈ calls, c.2 < 0 + 7200) →
       ∀ p ∈ calls.zip (runClaims ⟨[(claimKey "2026-01-12" "MORNING", 0 + 7200)]⟩ calls).1,
         p.1.1 = claimKey "2026-01-12" "MORNING" → p.2 = false) :=
  ⟨by decide, by decide,
   c3_claimSlot ⟨[]⟩ (claimKey "2026-01-12" "MORNING") 0
     ⟨[(claimKey "2026-01-12" "MORNING", 0 + 7200)]⟩ (by decide)⟩


/-- Tail of the due-check cascade, rephrased from Bool matches to the
corresponding propositions. -/
theorem dueTail_iff (cat : Catalog) (slot mid mfreq : String) (masn : Bool)
    (mend : Option Int) (checkDay : Int) :
    ((match mend with | some e => decide (e < checkDay) | none => false) = false ∧
      masn = false ∧
      (if mid = "atropine" then slot ∈ getAtropineSlots cat checkDay
       else (match lookupFreq cat.frequencySlots mfreq with
             | none => false
             | some ss => decide (slot ∈ ss)) = true))
    ↔ ((∀ e, mend = some e → checkDay ≤ e) ∧ masn = false ∧
       (if mid = "atropine" then slot ∈ getAtropineSlots cat checkDay
        else ∃ ss, lookupFreq cat.frequencySlots mfreq = some ss ∧ slot ∈ ss)) := by
  refine and_congr ?_ (and_congr_right fun _ => ?_)
  · cases mend with
    | none => simp
    | some e => simp [Int.not_lt]
  · by_cases hat : mid = "atropine"
    · simp [hat]
    · simp only [if_neg hat]
      cases hf : lookupFreq cat.frequencySlots mfreq with
      | none => simp [hf]
      | some ss => simp [hf]

/-- C5 counterexample: a medication of the tapering frequency kind whose
id is not "atropine" is never due under the code (its frequency has no
slot table), while the claim's cascade — keyed on the tapering kind —
makes it due via its own tapering table. -/
theorem c5_counterexample :
    isMedicationDue catFoo ov0 fooMed "MORNING" 0 = false ∧
    isMedicationDueClaim catFoo ov0 fooMed "MORNING" 0 = true := by
  decide

/-- C5, corrected: `isMedicationDue` merges the override field-by-field
and short-circuits on effective active, start date (calendar-day
comparison), end date, and as-needed, exactly as claimed; but the
special-cased branch is keyed on the medication id being "atropine"
(reading the catalog atropine's tapering table, day numbers other than
1 and 2 — including days before the anchor — selecting the day-3-plus
set), not on the medication being of the tapering frequency kind;
otherwise membership in the effective frequency's slot set decides. -/
theorem c5_isMedicationDue (cat : Catalog) (ovOf : String → Option ScheduleOverride)
    (med : Medication) (slot : String) (checkDay : Int) :
    isMedicationDue cat ovOf med slot checkDay = true ↔
      ((mergeSchedule med (ovOf med.id)).active = true ∧
       (∀ s, (mergeSchedule med (ovOf med.id)).startDate = some s → s ≤ checkDay) ∧
       (∀ e, (mergeSchedule med (ovOf med.id)).endDate = some e → checkDay ≤ e) ∧
       (mergeSchedule med (ovOf med.id)).asNeeded = false ∧
       (if (mergeSchedule med (ovOf med.id)).id = "atropine"
        then slot ∈ getAtropineSlots cat checkDay
        else ∃ ss, lookupFreq cat.frequencySlots (mergeSchedule med (ovOf med.id)).frequency
               = some ss ∧ slot ∈ ss)) := by
  simp only [isMedicationDue]
  set eff := mergeSchedule med (ovOf med.id) with heff
  clear_value eff
  obtain ⟨mid, mname, mdose, mloc, mfreq, mstart, mend, mact, masn, mnotes, mtap⟩ := eff
  dsimp only
  cases mact with
  | false => simp
  | true =>
      cases mstart with
      | some s =>
          by_cases hlt : checkDay < s
          · simp [hlt]
          · simp [hlt]
            have hs2 : s ≤ checkDay := by omega
            simp only [hs2, true_and]
            exact dueTail_iff cat slot mid mfreq masn mend checkDay
      | none =>
          simp
          exact dueTail_iff cat slot mid mfreq masn mend checkDay

/-- Over the aggregate-returning `sendNotification`, the logging loop's
TypeError fires for every reminder: nothing is stamped with sent-at and
no id is collected. -/
theorem processSend_object (wa ms : GenReminder → Except Unit (List RecipientResult))
    (msConfigured : Bool) (now : Int) :
    ∀ rs, processSend (cronSend wa ms msConfigured) now rs = (rs, [])
  | [] => rfl
  | r :: rest => by
      unfold processSend
      rw [processSend_object wa ms msConfigured now rest]
      rfl

/-- C1, confirmed: with the handler's actual send callable —
`sendNotification`, which never throws and returns the non-iterable
aggregate `{whatsapp, messenger, summary}` object — the per-reminder
logging loop `for (const result of sendResults)` throws a TypeError
that the surrounding catch swallows before sent-at is assigned or the
id pushed.  Hence the trigger handler adds no reminder to pending and
populates no sent-at: in particular a reminder whose send results hold
no successful recipient is not added and keeps its sent-at, and
"added to pending with sent-at populated only if at least one recipient
succeeded" holds (vacuously, as nothing is ever added — the recording
of partially successful dispatches is equally dead, but that converse
is not part of this claim). -/
theorem c1_full_failure (wa ms : GenReminder → Except Unit (List RecipientResult))
    (msConfigured : Bool) (now : Int) (pending reminders : List GenReminder) :
    cronSendPhase (cronSend wa ms msConfigured) now pending reminders = pending ∧
    (processSend (cronSend wa ms msConfigured) now reminders).1 = reminders ∧
    (∀ r ∈ reminders,
      (((sendNotification wa ms msConfigured r).whatsapp
          ++ (sendNotification wa ms msConfigured r).messenger).all
            fun res => !res.success) = true →
      ∀ u ∈ cronSendPhase (cronSend wa ms msConfigured) now pending reminders,
        u ∈ pending) := by
  have hp := processSend_object wa ms msConfigured now reminders
  have h1 : cronSendPhase (cronSend wa ms msConfigured) now pending reminders = pending := by
    simp only [cronSendPhase]
    rw [hp]
    simp [addPendingReminders]
  refine ⟨h1, ?_, ?_⟩
  · rw [hp]
  · intro r hr hfail u hu
    rw [h1] at hu
    exact hu

/-- C1 witness: the theorem at a WhatsApp channel on which every
recipient fails (Messenger unconfigured) over one generated reminder:
the full-failure premise holds concretely, nothing reaches pending and
the reminder keeps its null sent-at. -/
theorem c1_witness :
    ((((sendNotification waAllFail msEmpty false (mkRem "x" "m" "S" none)).whatsapp
        ++ (sendNotification waAllFail msEmpty false (mkRem "x" "m" "S" none)).messenger).all
          fun res => !res.success) = true) ∧
    (cronSendPhase (cronSend waAllFail msEmpty false) 5 [] [mkRem "x" "m" "S" none] = [] ∧
     (processSend (cronSend waAllFail msEmpty false) 5 [mkRem "x" "m" "S" none]).1
        = [mkRem "x" "m" "S" none] ∧
     (∀ r ∈ [mkRem "x" "m" "S" none],
       (((sendNotification waAllFail msEmpty false r).whatsapp
           ++ (sendNotification waAllFail msEmpty false r).messenger).all
             fun res => !res.success) = true →
       ∀ u ∈ cronSendPhase (cronSend waAllFail msEmpty false) 5 [] [mkRem "x" "m" "S" none],
         u ∈ ([] : List GenReminder))) :=
  ⟨by decide, c1_full_failure waAllFail msEmpty false 5 [] [mkRem "x" "m" "S" none]⟩

/-- An instant resolving to the EVENING or LATE_NIGHT window has its
Pacific minute-of-day between 19:00 and 22:45. -/
theorem slot_c10_window (m : Nat) (s : String) (h : getCurrentTimeSlot m = some s)
    (hs : s = "EVENING" ∨ s = "LATE_NIGHT") : 1140 ≤ m ∧ m < 1365 := by
  rcases hs with rfl | rfl <;>
  · simp only [getCurrentTimeSlot, slotWindows, findSlot] at h
    split_ifs at h <;> dsimp only at h <;>
      first
        | omega
        | exact absurd (Option.some.inj h) (by decide)

/-- C10, confirmed: reminder ids carry the UTC calendar date
(`toISOString`) while the slot-claim key carries the Pacific calendar
date (`getTodayDateString`); during the EVENING and LATE_NIGHT trigger
windows — under either Pacific offset (420 or 480 minutes behind UTC) —
the UTC day index is exactly one ahead of the Pacific day index, so the
generated id names the day after the claim key's date. -/
theorem c10_utc_vs_pacific (utcMin off : Nat) (s : String)
    (hoff : off = 420 ∨ off = 480) (hmin : 480 ≤ utcMin)
    (hslot : getCurrentTimeSlot (pacificMinutesOfDay utcMin off) = some s)
    (hs : s = "EVENING" ∨ s = "LATE_NIGHT") :
    utcDayIndex utcMin = pacificDayIndex utcMin off + 1 := by
  have hw := slot_c10_window _ s hslot hs
  unfold pacificMinutesOfDay at hw
  unfold utcDayIndex pacificDayIndex
  rcases hoff with rfl | rfl <;> omega

/-- C10 witness: the theorem at the instant 1625 minutes past the epoch
under the 480-minute (standard-time) offset: locally 19:05 on day 0,
EVENING window, while the UTC day index is already 1. -/
theorem c10_witness :
    ((480 : Nat) = 420 ∨ (480 : Nat) = 480) ∧ (480 : Nat) ≤ 1625 ∧
    getCurrentTimeSlot (pacificMinutesOfDay 1625 480) = some "EVENING" ∧
    ("EVENING" = "EVENING" ∨ "EVENING" = "LATE_NIGHT") ∧
    utcDayIndex 1625 = pacificDayIndex 1625 480 + 1 :=
  ⟨Or.inr rfl, by decide, by decide, Or.inl rfl,
   c10_utc_vs_pacific 1625 480 "EVENING" (Or.inr rfl) (by decide) (by decide) (Or.inl rfl)⟩


/-- C5 witness: the corrected characterization instantiated at the
sample catalog and medication. -/
theorem c5_witness :
    isMedicationDue cat0 ov0 medA "MORNING" 0 = true ↔
      ((mergeSchedule medA (ov0 medA.id)).active = true ∧
       (∀ s, (mergeSchedule medA (ov0 medA.id)).startDate = some s → s ≤ 0) ∧
       (∀ e, (mergeSchedule medA (ov0 medA.id)).endDate = some e → 0 ≤ e) ∧
       (mergeSchedule medA (ov0 medA.id)).asNeeded = false ∧
       (if (mergeSchedule medA (ov0 medA.id)).id = "atropine"
        then "MORNING" ∈ getAtropineSlots cat0 0
        else ∃ ss, lookupFreq cat0.frequencySlots (mergeSchedule medA (ov0 medA.id)).frequency
               = some ss ∧ "MORNING" ∈ ss)) :=
  c5_isMedicationDue cat0 ov0 medA "MORNING" 0

/-- C9 witness: the corrected characterization instantiated at a
single-entry pending list. -/
theorem c9_witness :
    (∀ r, r ∈ getRemindersToResend [mkRem "r" "m" "S" (some 1000)] 5000000 30 ↔
        r ∈ [mkRem "r" "m" "S" (some 1000)] ∧
          ∃ t, r.sentAt = some t ∧ t ≠ 0 ∧ (30 : Int) * 60 * 1000 ≤ 5000000 - t) ∧
    getRemindersToResendDefault [mkRem "r" "m" "S" (some 1000)] 5000000
      = getRemindersToResend [mkRem "r" "m" "S" (some 1000)] 5000000 30 :=
  c9_resend [mkRem "r" "m" "S" (some 1000)] 5000000 30


end Yuki
